import Mathlib

/-!
Verification development for the SaRLVision detection environment
(`Experiments/RL/env.py`) and its value-estimator models
(`Experiments/RL/models.py`, `Experiments/RL/SaRLVision/models.py`).

Modelling conventions:
* Python floats are modelled as rationals (`ℚ`); real-valued torch tensors
  become functions `Fin n → ℚ`.
* `utils.py` is not part of the provided sources; the functions taken from
  it (`iou`, the feature extractor adapter) are modelled from the spec and
  carry a doc comment saying so.
* `self.actions_history` is a Python list: `[] += [[100]*9]*20` builds a
  list of twenty references to one shared row list.  The model keeps a
  heap of row objects together with one address per slot, so element
  writes through one reference are visible through the others, exactly as
  in CPython.
* Because the history is a list and not a tensor, the torch operations the
  source applies to it raise: `torch.nonzero(self.actions_history)`
  (env.py line 195) raises `TypeError`, and
  `self.actions_history.view(1,-1)` (env.py line 170) raises
  `AttributeError`.  These raises are modelled as `PyError` results:
  `update_history` and `get_state` never return normally, `step` and
  `reset` propagate the exception, and no code past the raising line is
  modelled as executing.
-/

/-- A bounding box `[xmin, ymin, xmax, ymax]` in pixel coordinates,
as stored in `self.bbox` (env.py line 45 and line 278). -/
structure Bbox where
  xmin : ℚ
  ymin : ℚ
  xmax : ℚ
  ymax : ℚ
deriving DecidableEq

/-- Modelled from the spec: `iou` is defined in `utils.py`, which is not
among the provided sources.  Per spec section 4.2 it is the standard
intersection-area over union-area of two axis-aligned boxes, defined as 0
when the union area is 0. -/
def iou (a b : Bbox) : ℚ :=
  let ix := max 0 (min a.xmax b.xmax - max a.xmin b.xmin)
  let iy := max 0 (min a.ymax b.ymax - max a.ymin b.ymin)
  let inter := ix * iy
  let areaA := (a.xmax - a.xmin) * (a.ymax - a.ymin)
  let areaB := (b.xmax - b.xmin) * (b.ymax - b.ymin)
  let uni := areaA + areaB - inter
  if uni = 0 then 0 else inter / uni

/-- Predicate stating that every coordinate of a box lies inside the image
extent, the property claimed for the clamped transform output. -/
def InBounds (w h : ℚ) (b : Bbox) : Prop :=
  0 ≤ b.xmin ∧ b.xmin ≤ w ∧ 0 ≤ b.ymin ∧ b.ymin ≤ h ∧
    0 ≤ b.xmax ∧ b.xmax ≤ w ∧ 0 ≤ b.ymax ∧ b.ymax ≤ h

instance (w h : ℚ) (b : Bbox) : Decidable (InBounds w h b) := by
  unfold InBounds; infer_instance

/-- One row of the action history: nine scalar entries (the shape of the
rows `[100]*9` and of `torch.zeros(9)`, env.py lines 42 and 189). -/
def Row : Type := Fin 9 → ℚ

/-- The sentinel row `[100]*9` used to fill the history at construction
and reset (env.py lines 42 and 358). -/
def sentinelRow : Row := fun _ => 100

/-- The one-hot `action_vector` built by env.py lines 189-192
(`torch.zeros(9)` followed by `action_vector[action] = 1`); a fresh local
tensor, not part of the history. -/
def oneHotRow (a : Fin 9) : Row := fun j => if j = a then 1 else 0

/-- The actions-history list.  `self.actions_history += [[100]*9]*20`
builds a Python list of twenty references to one shared row object, so the
model keeps a heap of row objects (`heap`) and, for each of the twenty
list positions, the address of the row it references (`slots`). -/
structure ActionsHistory where
  heap : Nat → Row
  slots : Fin 20 → Nat

/-- The history created at construction and at reset: a single row object
holding the sentinel values, referenced by all twenty slots. -/
def initHistory : ActionsHistory :=
  { heap := fun _ => sentinelRow, slots := fun _ => 0 }

/-- Reading list position `i` dereferences the stored address. -/
def ActionsHistory.read (h : ActionsHistory) (i : Fin 20) : Row :=
  h.heap (h.slots i)

/-- Element assignment `actions_history[i][a] = v` mutates one entry of the
row object referenced by position `i`, the write the append branch of
`update_history` would perform (env.py line 199). -/
def ActionsHistory.writeElem (h : ActionsHistory) (i : Fin 20) (a : Fin 9)
    (v : ℚ) : ActionsHistory :=
  { heap := fun addr =>
      if addr = h.slots i then
        fun x => if x = a then v else h.heap addr x
      else h.heap addr,
    slots := h.slots }

/-- The exceptions the source raises on its list-typed action history and
at the broken reward call. -/
inductive PyError where
  /-- `TypeError`: `torch.nonzero` applied to the Python list
  `self.actions_history` (env.py line 195); also the error `iou` would
  raise on the environment instance at env.py line 392 via line 94. -/
  | typeError
  /-- `AttributeError`: `.view` called on the Python list
  `self.actions_history` (env.py line 170). -/
  | attributeError
deriving DecidableEq

/-- `DetectionEnv.update_history` (env.py lines 178-207).  Lines 189-192
build the local one-hot `action_vector`; line 195 then evaluates
`len(torch.nonzero(self.actions_history))`, but `self.actions_history` is
the Python list created at construction or reset, not a tensor, so
`torch.nonzero` raises `TypeError` on every call.  Neither the append
branch (line 199) nor the shift branch (lines 202-204) is ever reached,
the history is left unchanged, and the call never returns; the model
therefore maps the call to the exception it raises. -/
def update_history (h : ActionsHistory) (action : Fin 9) : PyError :=
  let action_vector : Row := oneHotRow action
  PyError.typeError

/-- The raw image supplied by the caller: `image.shape[0]` is the height,
`image.shape[1]` the width; the pixel content is opaque to the core and is
represented by an abstract tag consumed by the feature extractor. -/
structure Image where
  height : ℚ
  width : ℚ
  data : ℕ

/-- A two-dimensional torch tensor, kept only as its shape together with
its entries; used to model the feature tensor whose `.shape[0]` the
constructor reads (env.py line 57). -/
structure Tensor2 where
  rows : ℕ
  cols : ℕ
  entry : ℕ → ℕ → ℚ

/-- The environment state: the instance attributes set by
`DetectionEnv.__init__` (env.py lines 30-78).  The feature extractor is
modelled from the spec as a map from an image to a fixed-length embedding
of `F` scalars (spec section 2); `self.transform` is a preprocessing
artefact with no effect on any claim and is omitted.  Python instance
attributes are plain mutable fields, so any value of this type is an
environment-instance state. -/
structure EnvState (F : ℕ) where
  image : Image
  original_image : Image
  target_box : Bbox
  height : ℚ
  width : ℚ
  target_size : ℕ × ℕ
  actions_history : ActionsHistory
  num_episodes : ℕ
  bbox : Bbox
  feature_extractor : Image → Fin F → ℚ
  terminated : Bool
  truncated : Bool
  max_steps : ℕ
  step_count : ℕ
  alpha : ℚ
  nu : ℚ
  cumulative_reward : ℚ
  threshold : ℚ

/-- `DetectionEnv.__init__` (env.py lines 12-78), with the arguments in
source order; the source's default values (`max_steps=500`, `alpha=0.2`,
`nu=3.0`, `threshold=0.5`) are passed explicitly by the callers below.
All of the constructor's assignments are plain attribute writes and
execute normally. -/
def DetectionEnv.mk (F : ℕ) (image original_image : Image) (target_box : Bbox)
    (max_steps : ℕ) (alpha nu threshold : ℚ)
    (feature_extractor : Image → Fin F → ℚ) (target_size : ℕ × ℕ) :
    EnvState F :=
  { image := image
    original_image := original_image
    target_box := target_box
    height := image.height
    width := image.width
    target_size := target_size
    actions_history := initHistory
    num_episodes := 0
    bbox := ⟨0, 0, image.width, image.height⟩
    feature_extractor := feature_extractor
    terminated := false
    truncated := false
    max_steps := max_steps
    step_count := 0
    alpha := alpha
    nu := nu
    cumulative_reward := 0
    threshold := threshold }

/-- `DetectionEnv.get_features` (env.py lines 134-151): the transformed
image is passed through the extractor on a batch of one; the backbone
forward (models.py lines 37-42) ends in `torch.flatten(x, 1)`, so the
result is a tensor of shape `(1, F)`.  No attribute is touched, and the
history list is not involved, so the call returns normally. -/
def DetectionEnv.get_features {F : ℕ} (s : EnvState F) (img : Image) :
    Tensor2 :=
  { rows := 1
    cols := F
    entry := fun _ j => if hj : j < F then s.feature_extractor img ⟨j, hj⟩ else 0 }

/-- `DetectionEnv.get_state` (env.py lines 153-176).  Lines 161-167
compute the feature tensor (no attribute is mutated); line 170 then calls
`self.actions_history.view(1,-1)` on the Python list, which has no `view`
method, so every call raises `AttributeError` and no observation vector is
ever returned. -/
def DetectionEnv.get_state {F : ℕ} (s : EnvState F) :
    Except PyError (List ℚ) :=
  Except.error PyError.attributeError

/-- The declared observation-space length (env.py lines 57-65):
`feature_len` is `self.get_features(self.image).shape[0]`, the batch
dimension of the `(1, F)` feature tensor, and `history_len` is
`len(self.actions_history)`, the number of entries of the twenty-element
history list.  These lines run in the constructor and execute normally. -/
def DetectionEnv.observation_space_len {F : ℕ} (s : EnvState F) : ℕ :=
  (DetectionEnv.get_features s s.image).rows + 20

/-- `DetectionEnv.calculate_reward` (env.py lines 80-107) as its body is
written: the sign test on `iou(current_state, target) -
iou(previous_state, target)`.  Note that the source omits the `self`
parameter, so at the call site in `step` (line 392) Python would bind the
environment instance to `current_state`; this definition records the
three-argument body itself, which is never successfully invoked. -/
def calculate_reward (current_state previous_state target_box : Bbox) : ℚ :=
  let iou_current := iou current_state target_box
  let iou_previous := iou previous_state target_box
  let reward := iou_current - iou_previous
  if reward ≤ 0 then -1 else 1

/-- `DetectionEnv.calculate_trigger_reward` (env.py lines 109-132):
`nu` when the IoU against the target reaches the threshold, `-1*nu`
otherwise.  A pure function of its arguments; the only call site (env.py
line 394) is unreachable, because `step` raises earlier. -/
def DetectionEnv.calculate_trigger_reward {F : ℕ} (s : EnvState F)
    (current_state target_box : Bbox) : ℚ :=
  let reward := iou current_state target_box
  if s.threshold ≤ reward then s.nu else -1 * s.nu

/-- `DetectionEnv.rewrap` (env.py lines 280-291): clamp a coordinate into
`[0, size]`. -/
def DetectionEnv.rewrap (coordinate size : ℚ) : ℚ :=
  min (max 0 coordinate) size

/-- `DetectionEnv.transform_action` (env.py lines 209-278): the eight
geometric edits followed by the per-coordinate clamp.  The intermediate
quadruple keeps the source's `(xmin, xmax, ymin, ymax)` reading order of
line 234; an action index with no matching branch leaves the coordinates
unchanged, as the `if`/`elif` chain does.  A pure function of the state;
its only call site (env.py line 391) is unreachable, because `step`
raises earlier. -/
def DetectionEnv.transform_action {F : ℕ} (s : EnvState F) (action : ℕ) :
    Bbox :=
  let xmin := s.bbox.xmin
  let xmax := s.bbox.xmax
  let ymin := s.bbox.ymin
  let ymax := s.bbox.ymax
  let alpha_h := s.alpha * (ymax - ymin)
  let alpha_w := s.alpha * (xmax - xmin)
  let c : ℚ × ℚ × ℚ × ℚ :=
    if action = 0 then (xmin + alpha_w, xmax + alpha_w, ymin, ymax)
    else if action = 1 then (xmin - alpha_w, xmax - alpha_w, ymin, ymax)
    else if action = 2 then (xmin, xmax, ymin - alpha_h, ymax - alpha_h)
    else if action = 3 then (xmin, xmax, ymin + alpha_h, ymax + alpha_h)
    else if action = 4 then
      (xmin - alpha_w, xmax + alpha_w, ymin - alpha_h, ymax + alpha_h)
    else if action = 5 then
      (xmin + alpha_w, xmax - alpha_w, ymin + alpha_h, ymax - alpha_h)
    else if action = 6 then (xmin, xmax, ymin + alpha_h, ymax - alpha_h)
    else if action = 7 then (xmin + alpha_w, xmax - alpha_w, ymin, ymax)
    else (xmin, xmax, ymin, ymax)
  { xmin := DetectionEnv.rewrap c.1 s.width
    ymin := DetectionEnv.rewrap c.2.2.1 s.height
    xmax := DetectionEnv.rewrap c.2.1 s.width
    ymax := DetectionEnv.rewrap c.2.2.2 s.height }

/-- `DetectionEnv.reset` (env.py lines 320-368), arguments in source
order.  The assignments of lines 339-365 are plain attribute writes and
all execute: they are reproduced field by field.  `terminated` is never
assigned in the body, so it keeps its prior value, and `num_episodes` is
assigned 0 (line 357).  Line 368 then evaluates `self.get_state()`, which
raises `AttributeError` at env.py line 170, so the call propagates the
exception after the mutations instead of returning an observation. -/
def DetectionEnv.reset {F : ℕ} (s : EnvState F) (image original_image : Image)
    (target_box : Bbox) (max_steps : ℕ) (alpha nu threshold : ℚ)
    (feature_extractor : Image → Fin F → ℚ) (target_size : ℕ × ℕ) :
    EnvState F × Except PyError (List ℚ) :=
  let r : EnvState F :=
    { image := image
      original_image := original_image
      target_box := target_box
      height := image.height
      width := image.width
      target_size := target_size
      max_steps := max_steps
      step_count := 0
      alpha := alpha
      nu := nu
      cumulative_reward := 0
      truncated := false
      threshold := threshold
      actions_history := initHistory
      num_episodes := 0
      bbox := ⟨0, 0, image.width, image.height⟩
      feature_extractor := feature_extractor
      terminated := s.terminated }
  (r, DetectionEnv.get_state r)

/-- `DetectionEnv.step` (env.py lines 370-416).  Line 384 calls
`self.update_history(action)` unconditionally; that call raises
`TypeError` at env.py line 195 on every invocation, so the exception
propagates out of `step` before line 386 and none of the later lines (the
transform and reward of lines 390-392, the trigger handling of lines
393-395, the counters and flags of lines 398-413, the return of line 416)
ever executes.  The state component of the result is the caller's state,
untouched; the second component is the raised exception in place of the
documented `(observation, reward, terminated, truncated)` tuple. -/
def DetectionEnv.step {F : ℕ} (s : EnvState F) (action : Fin 9) :
    EnvState F × Except PyError (List ℚ × ℚ × Bool × Bool) :=
  (s, Except.error (update_history s.actions_history action))

/-- An affine (torch `nn.Linear`) layer over rationals: weight matrix and
bias, applied as `W x + b`. -/
structure Linear (m n : ℕ) where
  weight : Fin n → Fin m → ℚ
  bias : Fin n → ℚ

/-- Application of a linear layer. -/
def Linear.apply {m n : ℕ} (l : Linear m n) (x : Fin m → ℚ) : Fin n → ℚ :=
  fun j => (∑ i, l.weight j i * x i) + l.bias j

/-- `nn.ReLU` on one scalar. -/
def relu (q : ℚ) : ℚ := max q 0

/-- `nn.ReLU` applied pointwise to a vector. -/
def reluVec {n : ℕ} (v : Fin n → ℚ) : Fin n → ℚ := fun i => relu (v i)

/-- The Dueling DQN parameters (SaRLVision/models.py lines 194-208): the
shared stack `Linear(ninputs,1024), ReLU, Linear(1024,512), ReLU,
Linear(512,256), ReLU, Linear(256,128), ReLU`, then the scalar value head
and the 9-action advantage head. -/
structure DuelingDQN (ninputs : ℕ) where
  s1 : Linear ninputs 1024
  s2 : Linear 1024 512
  s3 : Linear 512 256
  s4 : Linear 256 128
  valfunc : Linear 128 1
  advfunc : Linear 128 9

/-- The shared representation `o = self.shared_layers(X)`. -/
def DuelingDQN.shared {n : ℕ} (m : DuelingDQN n) (x : Fin n → ℚ) :
    Fin 128 → ℚ :=
  reluVec (m.s4.apply (reluVec (m.s3.apply
    (reluVec (m.s2.apply (reluVec (m.s1.apply x)))))))

/-- `value = self.valfunc(o)`, a scalar broadcast over the actions. -/
def DuelingDQN.value {n : ℕ} (m : DuelingDQN n) (x : Fin n → ℚ) : ℚ :=
  m.valfunc.apply (m.shared x) 0

/-- `adv = self.advfunc(o)`. -/
def DuelingDQN.adv {n : ℕ} (m : DuelingDQN n) (x : Fin n → ℚ) : Fin 9 → ℚ :=
  m.advfunc.apply (m.shared x)

/-- `DuelingDQN.forward` (SaRLVision/models.py lines 210-217):
`value + adv - adv.mean(dim=-1, keepdim=True)`. -/
def DuelingDQN.forward {n : ℕ} (m : DuelingDQN n) (x : Fin n → ℚ) :
    Fin 9 → ℚ :=
  fun i => m.value x + m.adv x i - (∑ j, m.adv x j) / 9

/-- The `NoisyLinear` parameters (SaRLVision/models.py lines 237-251):
mean and learned noise-scale tensors for the weights and the bias. -/
structure NoisyLinear (in_size out_size : ℕ) where
  w_mu : Fin out_size → Fin in_size → ℚ
  w_sigma : Fin out_size → Fin in_size → ℚ
  b_mu : Fin out_size → ℚ
  b_sigma : Fin out_size → ℚ

/-- `NoisyLinear.forward` in training mode (SaRLVision/models.py lines
255-258): the Gaussian draws `w_noise`, `b_noise` are supplied as inputs
(the sampling itself lives outside the pure model), and the layer applies
`F.linear(x, w_mu + w_sigma * w_noise, b_mu + b_sigma * b_noise)`. -/
def NoisyLinear.forwardTrain {i o : ℕ} (l : NoisyLinear i o)
    (w_noise : Fin o → Fin i → ℚ) (b_noise : Fin o → ℚ) (x : Fin i → ℚ) :
    Fin o → ℚ :=
  fun r => (∑ c, (l.w_mu r c + l.w_sigma r c * w_noise r c) * x c) +
    (l.b_mu r + l.b_sigma r * b_noise r)

/-- `NoisyLinear.forward` in evaluation mode (SaRLVision/models.py lines
259-260): `F.linear(x, self.w_mu, self.b_mu)`; no noise is drawn. -/
def NoisyLinear.forwardEval {i o : ℕ} (l : NoisyLinear i o)
    (x : Fin i → ℚ) : Fin o → ℚ :=
  fun r => (∑ c, l.w_mu r c * x c) + l.b_mu r

/-- The Noisy DQN parameters (SaRLVision/models.py lines 275-278): two
noisy layers of sizes `ninputs to 1024` and `1024 to 9`. -/
structure NoisyDQN (ninputs : ℕ) where
  a1 : NoisyLinear ninputs 1024
  a2 : NoisyLinear 1024 9

/-- `NoisyDQN.forward` in evaluation mode (SaRLVision/models.py lines
280-285): layer `a1`, `torch.tanh`, layer `a2`, each layer in its
evaluation branch.  `tanh` is transcendental, so it is supplied as an
arbitrary scalar function; every stated property holds for all of them. -/
def NoisyDQN.forwardEval {n : ℕ} (tanh : ℚ → ℚ) (m : NoisyDQN n)
    (x : Fin n → ℚ) : Fin 9 → ℚ :=
  m.a2.forwardEval (fun j => tanh (m.a1.forwardEval x j))

/-- A 100 by 100 test image. -/
def img0 : Image := { height := 100, width := 100, data := 0 }

/-- The test target box `[10, 10, 90, 90]`. -/
def target0 : Bbox := { xmin := 10, ymin := 10, xmax := 90, ymax := 90 }

/-- A feature extractor producing the empty embedding (`F = 0`). -/
def fe0 : Image → Fin 0 → ℚ := fun _ j => j.elim0

/-- A feature extractor with four constant features (`F = 4`). -/
def fe4 : Image → Fin 4 → ℚ := fun _ _ => 0

/-- A freshly constructed environment with the source defaults
(`max_steps=500`, `alpha=0.2`, `nu=3.0`, `threshold=0.5`). -/
def env0 : EnvState 0 :=
  DetectionEnv.mk 0 img0 img0 target0 500 (1/5) 3 (1/2) fe0 (224, 224)

/-- A freshly constructed environment with a four-feature extractor. -/
def env4 : EnvState 4 :=
  DetectionEnv.mk 4 img0 img0 target0 500 (1/5) 3 (1/2) fe4 (224, 224)

/-- An environment instance whose `num_episodes` attribute holds 3:
Python instance attributes are plain mutable fields, so such an instance
is obtained from a fresh one by the assignment `env.num_episodes = 3`. -/
def env3 : EnvState 0 := { env0 with num_episodes := 3 }

/-- An environment instance whose `terminated` attribute holds True,
obtained from a fresh one by the assignment `env.terminated = True`. -/
def envT : EnvState 0 := { env0 with terminated := true }

/-- A concrete noisy network: all means are fixed and the noise scales are
set to 2 and 3. -/
def noisyA : NoisyDQN 1 :=
  { a1 := { w_mu := fun _ _ => 1, w_sigma := fun _ _ => 2,
            b_mu := fun _ => 0, b_sigma := fun _ => 3 }
    a2 := { w_mu := fun _ _ => 1, w_sigma := fun _ _ => 2,
            b_mu := fun _ => 0, b_sigma := fun _ => 3 } }

/-- The same means as `noisyA` but with noise scales 5 and 7. -/
def noisyB : NoisyDQN 1 :=
  { a1 := { w_mu := fun _ _ => 1, w_sigma := fun _ _ => 5,
            b_mu := fun _ => 0, b_sigma := fun _ => 7 }
    a2 := { w_mu := fun _ _ => 1, w_sigma := fun _ _ => 5,
            b_mu := fun _ => 0, b_sigma := fun _ => 7 } }

/-- Claim C1 (code bug): on a fresh environment with `max_steps = 500`, a
single `step(8)` raises `TypeError` at env.py line 195 (inside the
unconditional history update of line 384), before the trigger handling of
lines 393-395 and the flag re-evaluation of lines 404-409 can run; the
state is untouched, so `terminated` stays False with `step_count` 0, and
no `(observation, reward, terminated, truncated)` tuple is returned.  The
claimed sticky trigger termination with `terminated == True` therefore
never happens. -/
theorem C1_theorem :
    env0.max_steps = 500 ∧ env0.terminated = false ∧
    DetectionEnv.step env0 8 = (env0, Except.error PyError.typeError) ∧
    (DetectionEnv.step env0 8).1.terminated = false ∧
    (DetectionEnv.step env0 8).1.step_count = 0 :=
  ⟨rfl, rfl, rfl, rfl, rfl⟩

/-- Claim C2 (code bug): a `step(0)` on a fresh environment raises
`TypeError` at env.py line 195 inside the history update of line 384,
before the transform of line 391 and the reward call of line 392 run;
the bounding box and the step counter are untouched and no reward in
`{-1, +1}` is produced.  (The reward call itself is also broken:
`calculate_reward` lacks the `self` parameter, so line 392 would bind the
environment instance to `current_state` and the already-overwritten
`self.bbox` to `previous_state`, never the pre-transform box.) -/
theorem C2_theorem :
    DetectionEnv.step env0 0 = (env0, Except.error PyError.typeError) ∧
    (DetectionEnv.step env0 0).1.bbox = env0.bbox ∧
    (DetectionEnv.step env0 0).1.step_count = env0.step_count :=
  ⟨rfl, rfl, rfl⟩

/-- Claim C3 (code bug): every call to `update_history` raises
`TypeError` at env.py line 195 (`torch.nonzero` on the Python list
`self.actions_history`), before either fill branch is reached, so no call
ever writes a row: the first call does not append into slot 0, the tenth
does not shift, and the history read through `step` is always the
caller's unchanged list (all-sentinel from construction). -/
theorem C3_theorem :
    update_history initHistory 0 = PyError.typeError ∧
    (∀ (h : ActionsHistory) (a : Fin 9),
        update_history h a = PyError.typeError) ∧
    (∀ (i : Fin 20) (x : Fin 9), initHistory.read i x = 100) ∧
    (∀ (F : ℕ) (s : EnvState F) (a : Fin 9),
        (DetectionEnv.step s a).1.actions_history = s.actions_history) :=
  ⟨rfl, fun h a => rfl, fun i x => rfl, fun F s a => rfl⟩

/-- Claim C4 (code bug): the declared observation-space length (env.py
lines 57-65) is `get_features(image).shape[0] + len(actions_history)` =
1 (the batch dimension of the `(1, F)` feature tensor) + 20 (the rows of
the history list) = 21 for every environment, not
`feature_vector_length + 180`; and `get_state` never returns a vector of
any length, because it raises `AttributeError` at env.py line 170
(`.view` on the Python list).  For `env4` (`F = 4`) the claimed length
would be 184, which the declared 21 does not match. -/
theorem C4_theorem :
    (∀ (F : ℕ) (s : EnvState F),
        DetectionEnv.observation_space_len s = 21 ∧
          DetectionEnv.get_state s = Except.error PyError.attributeError) ∧
      DetectionEnv.observation_space_len env4 = 21 ∧ (21 : ℕ) ≠ 4 + 180 :=
  ⟨fun F s => ⟨rfl, rfl⟩, rfl, by norm_num⟩

/-- Claim C5 (counterexample): on an environment instance whose episode
counter holds 3 (instance attributes are plain mutable fields), `reset`
does not leave the counter unchanged: the assignment of env.py line 357
executes and returns it to 0.  The reset body is assignment-only up to the
raise at line 368, so this is directly traceable in the source. -/
theorem C5_counterexample :
    env3.num_episodes = 3 ∧
    (DetectionEnv.reset env3 img0 img0 target0 500 (1/5) 3 (1/2) fe0
        (224, 224)).1.num_episodes ≠ env3.num_episodes :=
  ⟨rfl, by decide⟩

/-- Claim C5 (amended): `reset` does not increment `num_episodes`, but it
does not leave it unchanged either: env.py line 357 assigns
`num_episodes = 0` on every reset (the assignments of lines 339-365 all
execute before the raise at line 368), so the counter is zeroed at
construction and at every reset rather than persisting; and it is never
incremented at all, because every `step` call raises `TypeError` at
env.py line 195 before the increment of line 413. -/
theorem C5_theorem :
    (∀ (F : ℕ) (s : EnvState F) (img orig : Image) (tb : Bbox) (ms : ℕ)
        (al nv th : ℚ) (fe : Image → Fin F → ℚ) (ts : ℕ × ℕ),
        (DetectionEnv.reset s img orig tb ms al nv th fe ts).1.num_episodes
          = 0) ∧
    (∀ (F : ℕ) (img orig : Image) (tb : Bbox) (ms : ℕ) (al nv th : ℚ)
        (fe : Image → Fin F → ℚ) (ts : ℕ × ℕ),
        (DetectionEnv.mk F img orig tb ms al nv th fe ts).num_episodes = 0) ∧
    (∀ (F : ℕ) (s : EnvState F) (a : Fin 9),
        (DetectionEnv.step s a).1.num_episodes = s.num_episodes) :=
  ⟨fun F s img orig tb ms al nv th fe ts => rfl,
    fun F img orig tb ms al nv th fe ts => rfl, fun F s a => rfl⟩

/-- Claim C6 (counterexample): on an environment instance whose
`terminated` attribute holds True (instance attributes are plain mutable
fields), `reset` leaves the flag True: the reset body (env.py lines
338-365) assigns every other episode field but never assigns
`self.terminated`, which is directly traceable in the source. -/
theorem C6_counterexample :
    envT.terminated = true ∧
    (DetectionEnv.reset envT img0 img0 target0 500 (1/5) 3 (1/2) fe0
        (224, 224)).1.terminated ≠ false :=
  ⟨rfl, by decide⟩

/-- Claim C6 (amended): the assignments of `reset` all execute: the
bounding box becomes the full image extents, the step counter and the
cumulative reward become 0, `truncated` becomes False and the action
history is reseeded with all-sentinel rows; but `terminated` is never
assigned and keeps its pre-reset value (it is cleared only at
construction), and the call then raises `AttributeError` at line 368
(via env.py line 170) instead of returning an observation. -/
theorem C6_theorem (F : ℕ) (s : EnvState F) (img orig : Image) (tb : Bbox)
    (ms : ℕ) (al nv th : ℚ) (fe : Image → Fin F → ℚ) (ts : ℕ × ℕ) :
    (DetectionEnv.reset s img orig tb ms al nv th fe ts).1.bbox =
        ⟨0, 0, img.width, img.height⟩ ∧
    (DetectionEnv.reset s img orig tb ms al nv th fe ts).1.step_count = 0 ∧
    (DetectionEnv.reset s img orig tb ms al nv th fe ts).1.cumulative_reward
        = 0 ∧
    (DetectionEnv.reset s img orig tb ms al nv th fe ts).1.truncated
        = false ∧
    (DetectionEnv.reset s img orig tb ms al nv th fe ts).1.terminated
        = s.terminated ∧
    (∀ (i : Fin 20) (x : Fin 9),
        (DetectionEnv.reset s img orig tb ms al nv th fe ts).1.actions_history.read
          i x = 100) ∧
    (DetectionEnv.reset s img orig tb ms al nv th fe ts).2 =
        Except.error PyError.attributeError :=
  ⟨rfl, rfl, rfl, rfl, rfl, fun i x => rfl, rfl⟩

theorem rewrap_nonneg (c sz : ℚ) (hs : 0 ≤ sz) :
    0 ≤ DetectionEnv.rewrap c sz :=
  le_min (le_max_left 0 c) hs

theorem rewrap_le_size (c sz : ℚ) : DetectionEnv.rewrap c sz ≤ sz :=
  min_le_right _ _

theorem transform_action_InBounds {F : ℕ} (t : EnvState F) (action : ℕ)
    (hw : 0 ≤ t.width) (hh : 0 ≤ t.height) :
    InBounds t.width t.height (DetectionEnv.transform_action t action) :=
  ⟨rewrap_nonneg _ _ hw, rewrap_le_size _ _, rewrap_nonneg _ _ hh,
    rewrap_le_size _ _, rewrap_nonneg _ _ hw, rewrap_le_size _ _,
    rewrap_nonneg _ _ hh, rewrap_le_size _ _⟩

/-- Claim C7 (confirmed): `transform_action` returns a box whose four
coordinates are each passed through `rewrap`, so for a nonnegative image
extent every coordinate of the result lies in `[0, width]` or
`[0, height]` respectively, for every action below 8; consequently a step
taken from a state whose box is in bounds leaves the box in bounds (every
`step` call raises inside the history update before the box could change,
so the box is simply unchanged). -/
theorem C7_theorem (F : ℕ) (s : EnvState F) (hw : 0 ≤ s.width)
    (hh : 0 ≤ s.height) :
    (∀ action : ℕ, action < 8 →
        InBounds s.width s.height (DetectionEnv.transform_action s action)) ∧
    (∀ action : Fin 9, InBounds s.width s.height s.bbox →
        InBounds s.width s.height (DetectionEnv.step s action).1.bbox) :=
  ⟨fun action _ => transform_action_InBounds s action hw hh,
    fun action hbb => hbb⟩

/-- Witness for claim C7: the clamp bounds evaluated on the concrete
fresh environment `env0` and the move-right action. -/
theorem C7_witness :
    InBounds env0.width env0.height (DetectionEnv.transform_action env0 0) :=
  (C7_theorem 0 env0 (by decide) (by decide)).1 0 (by decide)

/-- Claim C8 (confirmed): the Dueling DQN combines its heads as
`value + advantage - mean(advantage)` (SaRLVision/models.py line 217 and
models.py line 208), so for every parameter setting and every input the
mean over the nine actions of `Q - value` is exactly zero in exact
(rational) arithmetic. -/
theorem C8_theorem (n : ℕ) (m : DuelingDQN n) (x : Fin n → ℚ) :
    (∑ i : Fin 9, (DuelingDQN.forward m x i - DuelingDQN.value m x)) / 9
      = 0 := by
  have hterm : ∀ i : Fin 9,
      DuelingDQN.forward m x i - DuelingDQN.value m x =
        DuelingDQN.adv m x i - (∑ j, DuelingDQN.adv m x j) / 9 := by
    intro i
    unfold DuelingDQN.forward
    ring
  rw [Finset.sum_congr rfl (fun i _ => hterm i), Finset.sum_sub_distrib,
    Finset.sum_const, Finset.card_univ]
  simp [Fintype.card_fin, nsmul_eq_mul]
  field_simp

/-- Claim C9 (confirmed): in evaluation mode each noisy layer computes
`F.linear(x, w_mu, b_mu)` (SaRLVision/models.py line 260), so its output
is a function of the input and the mean parameters only, and the noise
scales `w_sigma`, `b_sigma` have no influence; the same holds for the
whole Noisy DQN in evaluation mode, for any activation in place of
`tanh`.  Determinism is inherent: the evaluation branch draws no noise,
so the model takes no noise input at all. -/
theorem C9_theorem :
    (∀ (i o : ℕ) (l1 l2 : NoisyLinear i o) (x : Fin i → ℚ),
        l1.w_mu = l2.w_mu → l1.b_mu = l2.b_mu →
        NoisyLinear.forwardEval l1 x = NoisyLinear.forwardEval l2 x) ∧
    (∀ (n : ℕ) (t : ℚ → ℚ) (m1 m2 : NoisyDQN n) (x : Fin n → ℚ),
        m1.a1.w_mu = m2.a1.w_mu → m1.a1.b_mu = m2.a1.b_mu →
        m1.a2.w_mu = m2.a2.w_mu → m1.a2.b_mu = m2.a2.b_mu →
        NoisyDQN.forwardEval t m1 x = NoisyDQN.forwardEval t m2 x) := by
  constructor
  · intro i o l1 l2 x hw hb
    unfold NoisyLinear.forwardEval
    rw [hw, hb]
  · intro n t m1 m2 x hw1 hb1 hw2 hb2
    unfold NoisyDQN.forwardEval NoisyLinear.forwardEval
    rw [hw1, hb1, hw2, hb2]

/-- Witness for claim C9: the networks `noisyA` and `noisyB` share their
mean parameters and differ in every noise scale, yet their evaluation-mode
outputs on a concrete input coincide. -/
theorem C9_witness :
    NoisyDQN.forwardEval id noisyA (fun _ => 1) =
      NoisyDQN.forwardEval id noisyB (fun _ => 1) :=
  C9_theorem.2 1 id noisyA noisyB (fun _ => 1) rfl rfl rfl rfl

/-- Claim C10 (counterexample): writing the append-mode one-hot entry
through slot 0 of the freshly created history changes the contents read
through slot 1, because the twenty rows are references to one shared
object. -/
theorem C10_counterexample :
    (initHistory.writeElem 0 3 1).read 1 3 ≠ initHistory.read 1 3 := by
  simp [ActionsHistory.writeElem, ActionsHistory.read, initHistory, sentinelRow]

/-- Claim C10 (amended): the twenty sentinel rows created by the
environment are twenty references to one shared row, so the append-mode
element write `actions_history[k][a] = 1` is visible through every slot:
after the write, every slot reads the sentinel row with entry `a`
replaced by 1. -/
theorem C10_theorem (k : Fin 20) (a : Fin 9) (j : Fin 20) (x : Fin 9) :
    (initHistory.writeElem k a 1).read j x =
      if x = a then 1 else sentinelRow x := by
  simp [ActionsHistory.writeElem, ActionsHistory.read, initHistory]
